import Mathlib

/-!
# SistemaSKC backend core — shallow embedding and verification

This file embeds the business-logic core of the SistemaSKC restaurant backend:
the inventory ledger (`apps/inventario`), the order lifecycle (`apps/pedidos`)
and the dish-catalog fragments they use (`apps/platos`).  Django `Decimal`
quantities are modelled as rationals (`ℚ`), timestamps as natural numbers, and
each endpoint/model method becomes an explicit state-passing function.
-/

deriving instance DecidableEq for Except

namespace SKC

/-! ## Inventory ledger (`apps/inventario`) -/

/-- The transaction kinds, `InventoryTransaction.TRANSACTION_TYPES`
(`apps/inventario/models.py`). -/
inductive TransactionType
  | RESTOCK
  | USAGE
  | ADJUSTMENT
  | WASTE
  | RETURN
deriving DecidableEq, Repr

/-- The adjustment kinds accepted by `InventoryAdjustmentSerializer`: the
`transaction_type` choice field excludes `USAGE`
(`apps/inventario/serializers.py`, line 46). -/
inductive AdjustKind
  | RESTOCK
  | ADJUSTMENT
  | WASTE
  | RETURN
deriving DecidableEq, Repr

/-- Inclusion of the serializer's choices into the full transaction-kind set. -/
def AdjustKind.toTransactionType : AdjustKind → TransactionType
  | .RESTOCK => .RESTOCK
  | .ADJUSTMENT => .ADJUSTMENT
  | .WASTE => .WASTE
  | .RETURN => .RETURN

/-- One `InventoryTransaction` row (`apps/inventario/models.py`, lines 110-126):
a signed quantity delta and the balance snapshot taken right after applying it. -/
structure InventoryTransaction where
  transaction_type : TransactionType
  quantity : ℚ
  balance_after : ℚ
  notes : String
deriving DecidableEq, Repr

/-- The mutable `InventoryStock` row (`apps/inventario/models.py`,
lines 71-76). -/
structure InventoryStock where
  quantity : ℚ
  last_restocked : Option ℕ
deriving DecidableEq, Repr

/-- Persistent state of one ingredient's ledger: its stock row and its
transaction rows in creation order (the model's `-created_at` ordering is
display-only). -/
structure LedgerState where
  stock : InventoryStock
  transactions : List InventoryTransaction
deriving DecidableEq, Repr

/-- Errors surfaced by the adjust endpoint. -/
inductive AdjustError
  | validation (field msg : String)
  | insufficientStock (detail : String)
deriving DecidableEq, Repr

/-- `InventoryAdjustmentSerializer.validate`
(`apps/inventario/serializers.py`, lines 50-59): quantity must be non-zero,
and for RESTOCK/WASTE/RETURN a negative quantity is a validation error. -/
def validateAdjustment (ttype : AdjustKind) (qty : ℚ) : Except AdjustError Unit :=
  if qty = 0 then
    .error (.validation "quantity" "Quantity must be non-zero.")
  else if qty < 0 ∧ (ttype = .RESTOCK ∨ ttype = .WASTE ∨ ttype = .RETURN) then
    .error (.validation "quantity" "Quantity must be positive.")
  else
    .ok ()

/-- The sign normalisation in `InventoryStockViewSet.adjust`
(`apps/inventario/views.py`, lines 67-72): RESTOCK keeps the quantity,
WASTE/RETURN negate it, ADJUSTMENT passes the caller-supplied value through. -/
def derivedDelta (ttype : AdjustKind) (qty : ℚ) : ℚ :=
  match ttype with
  | .RESTOCK => qty
  | .WASTE => -qty
  | .RETURN => -qty
  | .ADJUSTMENT => qty

/-- `InventoryStockViewSet.adjust` (`apps/inventario/views.py`, lines 57-93).
Returns the endpoint outcome together with the resulting persistent state;
the Python code returns the HTTP error before touching the database, which the
embedding mirrors by returning the input state unchanged on every error. -/
def adjust (now : ℕ) (ttype : AdjustKind) (qty : ℚ) (notes : String)
    (st : LedgerState) : Option AdjustError × LedgerState :=
  match validateAdjustment ttype qty with
  | .error e => (some e, st)
  | .ok _ =>
    let delta := derivedDelta ttype qty
    let new_qty := st.stock.quantity + delta
    if new_qty < 0 then
      (some (.insufficientStock "Insufficient stock for this adjustment."), st)
    else
      let stock1 : InventoryStock :=
        { quantity := new_qty
          last_restocked :=
            if ttype = .RESTOCK then some now else st.stock.last_restocked }
      let tx : InventoryTransaction :=
        { transaction_type := ttype.toTransactionType
          quantity := delta
          balance_after := stock1.quantity
          notes := notes }
      (none, { stock := stock1, transactions := st.transactions ++ [tx] })

/-- `InventoryStock.add_stock` (`apps/inventario/models.py`, lines 86-94). -/
def add_stock (q : ℚ) (st : LedgerState) : LedgerState :=
  let stock1 : InventoryStock := { st.stock with quantity := st.stock.quantity + q }
  let tx : InventoryTransaction :=
    { transaction_type := .RESTOCK
      quantity := q
      balance_after := stock1.quantity
      notes := "" }
  { stock := stock1, transactions := st.transactions ++ [tx] }

/-- `InventoryStock.deduct_stock` (`apps/inventario/models.py`, lines 96-107):
returns `false` without mutating anything when stock is insufficient. -/
def deduct_stock (q : ℚ) (st : LedgerState) : Bool × LedgerState :=
  if st.stock.quantity ≥ q then
    let stock1 : InventoryStock := { st.stock with quantity := st.stock.quantity - q }
    let tx : InventoryTransaction :=
      { transaction_type := .USAGE
        quantity := -q
        balance_after := stock1.quantity
        notes := "" }
    (true, { stock := stock1, transactions := st.transactions ++ [tx] })
  else
    (false, st)

/-- The three stock-changing operations of the repository. -/
inductive LedgerOp
  | adjustOp (now : ℕ) (ttype : AdjustKind) (qty : ℚ) (notes : String)
  | addStockOp (q : ℚ)
  | deductStockOp (q : ℚ)

/-- Run one ledger operation, keeping the resulting persistent state. -/
def applyOp (op : LedgerOp) (st : LedgerState) : LedgerState :=
  match op with
  | .adjustOp now t q n => (adjust now t q n st).2
  | .addStockOp q => add_stock q st
  | .deductStockOp q => (deduct_stock q st).2

/-- Run a sequence of ledger operations. -/
def applyOps (ops : List LedgerOp) (st : LedgerState) : LedgerState :=
  ops.foldl (fun s op => applyOp op s) st

/-- A fresh stock row as created by `IngredientSerializer.create` via
`get_or_create`: quantity defaults to `Decimal 0.00`, no transactions. -/
def initialLedger : LedgerState :=
  { stock := { quantity := 0, last_restocked := none }, transactions := [] }

/-- Replaying transaction deltas starting from a given balance. -/
def replayFrom (txs : List InventoryTransaction) (bal : ℚ) : ℚ :=
  txs.foldl (fun acc t => acc + t.quantity) bal

/-- Replaying an ingredient's transaction deltas from zero. -/
def replay (txs : List InventoryTransaction) : ℚ :=
  replayFrom txs 0

/-- Every transaction's `balance_after` equals the running balance right after
that transaction, starting the replay at `bal`. -/
def balancesOk : List InventoryTransaction → ℚ → Prop
  | [], _ => True
  | t :: rest, bal => t.balance_after = bal + t.quantity ∧ balancesOk rest (bal + t.quantity)

/-- The ledger invariant: balances are consistent with the replay from zero and
the stock quantity equals the final replayed balance. -/
def ledgerWF (st : LedgerState) : Prop :=
  balancesOk st.transactions 0 ∧ st.stock.quantity = replay st.transactions

theorem replay_def (txs : List InventoryTransaction) :
    replay txs = replayFrom txs 0 := rfl

theorem replayFrom_append (txs : List InventoryTransaction)
    (t : InventoryTransaction) (bal : ℚ) :
    replayFrom (txs ++ [t]) bal = replayFrom txs bal + t.quantity := by
  simp [replayFrom, List.foldl_append]

theorem adjust_eq_val_error (now : ℕ) (ttype : AdjustKind) (qty : ℚ)
    (notes : String) (st : LedgerState) (e : AdjustError)
    (hval : validateAdjustment ttype qty = .error e) :
    adjust now ttype qty notes st = (some e, st) := by
  unfold adjust
  rw [hval]

theorem adjust_eq_insufficient (now : ℕ) (ttype : AdjustKind) (qty : ℚ)
    (notes : String) (st : LedgerState)
    (hval : validateAdjustment ttype qty = .ok ())
    (hneg : st.stock.quantity + derivedDelta ttype qty < 0) :
    adjust now ttype qty notes st =
      (some (.insufficientStock "Insufficient stock for this adjustment."), st) := by
  unfold adjust
  rw [hval]
  simp only [hneg, if_pos]

theorem adjust_eq_ok (now : ℕ) (ttype : AdjustKind) (qty : ℚ)
    (notes : String) (st : LedgerState)
    (hval : validateAdjustment ttype qty = .ok ())
    (hpos : ¬ st.stock.quantity + derivedDelta ttype qty < 0) :
    adjust now ttype qty notes st =
      (none,
        { stock := { quantity := st.stock.quantity + derivedDelta ttype qty
                     last_restocked := if ttype = .RESTOCK then some now
                                       else st.stock.last_restocked }
          transactions := st.transactions ++
            [{ transaction_type := ttype.toTransactionType
               quantity := derivedDelta ttype qty
               balance_after := st.stock.quantity + derivedDelta ttype qty
               notes := notes }] }) := by
  unfold adjust
  rw [hval]
  simp only [hpos, if_neg, not_false_iff]

theorem balancesOk_append (txs : List InventoryTransaction)
    (t : InventoryTransaction) (bal : ℚ) (h : balancesOk txs bal)
    (ht : t.balance_after = replayFrom txs bal + t.quantity) :
    balancesOk (txs ++ [t]) bal := by
  induction txs generalizing bal with
  | nil =>
    simpa [balancesOk, replayFrom] using ht
  | cons hd tl ih =>
    obtain ⟨h1, h2⟩ := h
    refine ⟨h1, ih (bal + hd.quantity) h2 ?_⟩
    simpa [replayFrom] using ht

theorem ledgerWF_initial : ledgerWF initialLedger := by
  constructor
  · trivial
  · rfl

theorem ledgerWF_applyOp (op : LedgerOp) (st : LedgerState) (h : ledgerWF st) :
    ledgerWF (applyOp op st) := by
  obtain ⟨hb, hq⟩ := h
  cases op with
  | adjustOp now t q n =>
    show ledgerWF (adjust now t q n st).2
    cases hv : validateAdjustment t q with
    | error e =>
      rw [adjust_eq_val_error now t q n st e hv]
      exact ⟨hb, hq⟩
    | ok u =>
      have hu : validateAdjustment t q = .ok () := by cases u; exact hv
      by_cases hneg : st.stock.quantity + derivedDelta t q < 0
      · rw [adjust_eq_insufficient now t q n st hu hneg]
        exact ⟨hb, hq⟩
      · rw [adjust_eq_ok now t q n st hu hneg]
        refine ⟨balancesOk_append _ _ _ hb ?_, ?_⟩
        · show st.stock.quantity + derivedDelta t q =
            replayFrom st.transactions 0 + derivedDelta t q
          rw [hq, replay_def]
        · show st.stock.quantity + derivedDelta t q = replay (st.transactions ++ [_])
          rw [replay_def, replayFrom_append, ← replay_def, ← hq]
  | addStockOp q =>
    refine ⟨balancesOk_append _ _ _ hb ?_, ?_⟩
    · show st.stock.quantity + q = replayFrom st.transactions 0 + q
      rw [hq, replay_def]
    · show st.stock.quantity + q = replay (st.transactions ++ [_])
      rw [replay_def, replayFrom_append, ← replay_def, ← hq]
  | deductStockOp q =>
    show ledgerWF (deduct_stock q st).2
    by_cases hge : st.stock.quantity ≥ q
    · unfold deduct_stock
      rw [if_pos hge]
      refine ⟨balancesOk_append _ _ _ hb ?_, ?_⟩
      · show st.stock.quantity - q = replayFrom st.transactions 0 + -q
        rw [hq, replay_def]; ring
      · show st.stock.quantity - q = replay (st.transactions ++ [_])
        rw [replay_def, replayFrom_append, ← replay_def, ← hq]; ring
    · unfold deduct_stock
      rw [if_neg hge]
      exact ⟨hb, hq⟩

theorem ledgerWF_applyOps (ops : List LedgerOp) (st : LedgerState)
    (h : ledgerWF st) : ledgerWF (applyOps ops st) := by
  induction ops generalizing st with
  | nil => exact h
  | cons op rest ih => exact ih (applyOp op st) (ledgerWF_applyOp op st h)

/-- C1: an Adjust call that passes input validation but whose derived signed
delta would drive the stock quantity negative fails with `InsufficientStock`
and leaves the entire ledger state (stock quantity and transaction rows)
unchanged — in particular no new transaction row is created. -/
theorem C1_adjust_insufficient (now : ℕ) (ttype : AdjustKind) (qty : ℚ)
    (notes : String) (st : LedgerState)
    (hval : validateAdjustment ttype qty = .ok ())
    (hneg : st.stock.quantity + derivedDelta ttype qty < 0) :
    adjust now ttype qty notes st =
      (some (.insufficientStock "Insufficient stock for this adjustment."), st) := by
  unfold adjust
  rw [hval]
  simp only [hneg, if_pos]

/-- Witness for C1: stock at 0.50, WASTE adjustment of 1.00 fails with
`InsufficientStock` and leaves the state untouched. -/
theorem C1_witness :
    adjust 0 .WASTE 1 "" ⟨⟨1/2, none⟩, []⟩ =
      (some (.insufficientStock "Insufficient stock for this adjustment."),
        ⟨⟨1/2, none⟩, []⟩) :=
  C1_adjust_insufficient 0 .WASTE 1 "" ⟨⟨1/2, none⟩, []⟩ (by decide) (by norm_num [derivedDelta])

/-- C2: starting from the freshly created stock row (quantity 0, empty
ledger), any sequence of the repository's stock-changing operations (the
Adjust endpoint, `add_stock`, `deduct_stock`) keeps every transaction's
`balance_after` equal to the stock quantity right after that transaction in
creation order, and replaying the deltas from zero reproduces the current
stock quantity. -/
theorem C2_balance_after_replay (ops : List LedgerOp) :
    balancesOk (applyOps ops initialLedger).transactions 0 ∧
    (applyOps ops initialLedger).stock.quantity =
      replay (applyOps ops initialLedger).transactions :=
  ledgerWF_applyOps ops initialLedger ledgerWF_initial

/-- C4: the Adjust endpoint derives the signed delta as +magnitude for
RESTOCK, −magnitude for WASTE and RETURN, and the caller-supplied signed
value for ADJUSTMENT; zero magnitude is rejected for every kind, negative
magnitude is rejected (not sign-flipped) for RESTOCK/WASTE/RETURN, and a
non-zero (possibly negative) ADJUSTMENT magnitude passes validation. -/
theorem C4_delta_derivation :
    (∀ qty : ℚ, derivedDelta .RESTOCK qty = qty ∧ derivedDelta .WASTE qty = -qty ∧
      derivedDelta .RETURN qty = -qty ∧ derivedDelta .ADJUSTMENT qty = qty) ∧
    (∀ t : AdjustKind, validateAdjustment t 0 =
      .error (.validation "quantity" "Quantity must be non-zero.")) ∧
    (∀ (t : AdjustKind) (qty : ℚ), qty < 0 → t ≠ .ADJUSTMENT →
      validateAdjustment t qty =
        .error (.validation "quantity" "Quantity must be positive.")) ∧
    (∀ qty : ℚ, qty ≠ 0 → validateAdjustment .ADJUSTMENT qty = .ok ()) := by
  refine ⟨fun qty => ⟨rfl, rfl, rfl, rfl⟩, fun t => rfl, ?_, ?_⟩
  · intro t qty hneg hne
    have h0 : ¬ qty = 0 := by exact fun h => by simp [h] at hneg
    have hk : t = .RESTOCK ∨ t = .WASTE ∨ t = .RETURN := by
      cases t with
      | RESTOCK => exact Or.inl rfl
      | ADJUSTMENT => exact absurd rfl hne
      | WASTE => exact Or.inr (Or.inl rfl)
      | RETURN => exact Or.inr (Or.inr rfl)
    unfold validateAdjustment
    rw [if_neg h0, if_pos ⟨hneg, hk⟩]
  · intro qty h0
    unfold validateAdjustment
    rw [if_neg h0, if_neg]
    rintro ⟨-, h | h | h⟩ <;> exact AdjustKind.noConfusion h

/-- Witness for C4: concrete instances of each validation/derivation branch. -/
theorem C4_witness :
    derivedDelta .WASTE 2 = -2 ∧
    validateAdjustment .RESTOCK 0 =
      .error (.validation "quantity" "Quantity must be non-zero.") ∧
    validateAdjustment .WASTE (-1) =
      .error (.validation "quantity" "Quantity must be positive.") ∧
    validateAdjustment .ADJUSTMENT (-3) = .ok () :=
  ⟨(C4_delta_derivation.1 2).2.1, C4_delta_derivation.2.1 .WASTE,
    C4_delta_derivation.2.2.1 .WASTE (-1) (by norm_num) (by decide),
    C4_delta_derivation.2.2.2 (-3) (by norm_num)⟩

/-! ## Order lifecycle (`apps/pedidos`) -/

/-- `OrderStatus` (`apps/pedidos/models.py`, lines 12-18). -/
inductive OrderStatus
  | PENDING
  | CONFIRMED
  | IN_PROGRESS
  | READY
  | DELIVERED
  | CANCELLED
deriving DecidableEq, Repr, Fintype

/-- The display labels from `OrderStatus.choices`, used by
`get_status_display` in the transition error message. -/
def statusDisplay : OrderStatus → String
  | .PENDING => "Pending"
  | .CONFIRMED => "Confirmed"
  | .IN_PROGRESS => "In Progress"
  | .READY => "Ready"
  | .DELIVERED => "Delivered"
  | .CANCELLED => "Cancelled"

/-- The `valid_transitions` table in `OrderStatusUpdateSerializer.validate_status`
(`apps/pedidos/serializers.py`, lines 88-95). -/
def valid_transitions : OrderStatus → List OrderStatus
  | .PENDING => [.CONFIRMED, .CANCELLED]
  | .CONFIRMED => [.IN_PROGRESS, .CANCELLED]
  | .IN_PROGRESS => [.READY, .CANCELLED]
  | .READY => [.DELIVERED]
  | .DELIVERED => []
  | .CANCELLED => []

/-- The message of the `ValidationError` raised on a rejected transition
(`apps/pedidos/serializers.py`, lines 97-99): it names both the current and
the requested state by their display labels. -/
def transitionError (current requested : OrderStatus) : String :=
  "Transición inválida de " ++ statusDisplay current ++ " a " ++
    statusDisplay requested ++ "."

/-- `OrderStatusUpdateSerializer.validate_status`
(`apps/pedidos/serializers.py`, lines 86-100). -/
def validate_status (current requested : OrderStatus) : Except String OrderStatus :=
  if requested ∈ valid_transitions current then .ok requested
  else .error (transitionError current requested)

/-- The allowed-transition table exactly as the claim enumerates it. -/
def allowedPairs : List (OrderStatus × OrderStatus) :=
  [(.PENDING, .CONFIRMED), (.PENDING, .CANCELLED),
   (.CONFIRMED, .IN_PROGRESS), (.CONFIRMED, .CANCELLED),
   (.IN_PROGRESS, .READY), (.IN_PROGRESS, .CANCELLED),
   (.READY, .DELIVERED)]

/-- C3: `validate_status` succeeds exactly on the pairs of the transition
table, and on every other pair it fails with the `InvalidTransition` message
naming both states. -/
theorem C3_transition_table : ∀ current requested : OrderStatus,
    (validate_status current requested = .ok requested ↔
      (current, requested) ∈ allowedPairs) ∧
    ((current, requested) ∉ allowedPairs →
      validate_status current requested =
        .error (transitionError current requested)) := by
  decide

/-- Witness for C3: a skipped transition PENDING → READY is rejected with the
message naming both states, and the table pair READY → DELIVERED succeeds. -/
theorem C3_witness :
    validate_status .PENDING .READY = .error (transitionError .PENDING .READY) ∧
    validate_status .READY .DELIVERED = .ok .DELIVERED :=
  ⟨(C3_transition_table .PENDING .READY).2 (by decide),
   (C3_transition_table .READY .DELIVERED).1.mpr (by decide)⟩

/-- `Order` state as touched by the status-update endpoint
(`apps/pedidos/models.py`): status, completion timestamp and the recorded
actual preparation time. -/
structure OrderState where
  status : OrderStatus
  completed_at : Option ℕ
  actual_time : Option ℕ
deriving DecidableEq, Repr

/-- Python truthiness of the optional `actual_time` integer: `None` and `0`
are falsy. -/
def truthyNat : Option ℕ → Bool
  | none => false
  | some n => n != 0

/-- `OrderViewSet.update_status` (`apps/pedidos/views.py`, lines 109-135):
validate the transition, set the status, and when the new status is DELIVERED
with `completed_at` unset, stamp `completed_at` and — only when `actual_time`
is truthy — record it. -/
def update_status (now : ℕ) (requested : OrderStatus) (actual_time : Option ℕ)
    (o : OrderState) : Except String OrderState :=
  match validate_status o.status requested with
  | .error e => .error e
  | .ok _ =>
    let o1 : OrderState := { o with status := requested }
    if requested = .DELIVERED ∧ o1.completed_at = none then
      let o2 : OrderState := { o1 with completed_at := some now }
      let o3 : OrderState :=
        if truthyNat actual_time then { o2 with actual_time := actual_time } else o2
      .ok o3
    else
      .ok o1

/-- C7 counterexample: for an order in READY with `completed_at` unset, the
claim says a supplied `actualTime` is recorded; with `actualTime = 0` the code
leaves `actual_time` unset (`if actual_time:` is falsy on 0), so the updated
order does not carry `actual_time = 0`. -/
theorem C7_counterexample :
    (update_status 5 .DELIVERED (some 0) ⟨.READY, none, none⟩).map
        OrderState.actual_time ≠ .ok (some 0) ∧
    update_status 5 .DELIVERED (some 0) ⟨.READY, none, none⟩ =
      .ok ⟨.DELIVERED, some 5, none⟩ := by
  decide

/-- C7 (amended): a status change to DELIVERED on an order whose
`completed_at` is unset stamps `completed_at` with the current time and
records `actual_time` exactly when the supplied value is truthy (non-`None`
and non-zero); and once `completed_at` is set, no later successful
`update_status` call changes it. -/
theorem C7_delivered_stamp (now : ℕ) (requested : OrderStatus)
    (actual_time : Option ℕ) (o o1 : OrderState) :
    (o.status = .READY → o.completed_at = none →
      update_status now .DELIVERED actual_time o =
        .ok { status := .DELIVERED
              completed_at := some now
              actual_time := if truthyNat actual_time then actual_time
                             else o.actual_time }) ∧
    (update_status now requested actual_time o = .ok o1 →
      o.completed_at ≠ none → o1.completed_at = o.completed_at) := by
  constructor
  · intro hst hc
    by_cases ht : truthyNat actual_time <;>
      simp [update_status, validate_status, valid_transitions, hst, hc, ht]
  · intro hok hc
    unfold update_status at hok
    cases hv : validate_status o.status requested with
    | error e => rw [hv] at hok; exact absurd hok (by simp)
    | ok s =>
      rw [hv] at hok
      have hcond : ¬ (requested = .DELIVERED ∧
          ({ o with status := requested } : OrderState).completed_at = none) := by
        rintro ⟨-, h⟩
        exact hc h
      rw [if_neg hcond] at hok
      cases hok
      rfl

/-- Witness for C7: a READY order delivered with `actual_time = 25` gets the
timestamp and the recorded time; a successful DELIVERED call on an order whose
`completed_at` is already set leaves it unchanged. -/
theorem C7_witness :
    (update_status 7 .DELIVERED (some 25) ⟨.READY, none, none⟩ =
      .ok { status := .DELIVERED
            completed_at := some 7
            actual_time := if truthyNat (some 25) then some 25 else none }) ∧
    (⟨.DELIVERED, some 3, none⟩ : OrderState).completed_at =
      (⟨.READY, some 3, none⟩ : OrderState).completed_at :=
  ⟨(C7_delivered_stamp 7 .DELIVERED (some 25) ⟨.READY, none, none⟩
      ⟨.READY, none, none⟩).1 rfl rfl,
   (C7_delivered_stamp 9 .DELIVERED none ⟨.READY, some 3, none⟩
      ⟨.DELIVERED, some 3, none⟩).2 (by decide) (by decide)⟩

/-! ## Order creation, items and totals (`apps/pedidos`, `apps/platos`) -/

/-- One `OrderItem` row (`apps/pedidos/models.py`, lines 140-192); `dish`
is the referenced dish id. -/
structure OrderItemRec where
  dish : ℕ
  quantity : ℕ
  unit_price : ℚ
  subtotal : ℚ
  special_instructions : String
deriving DecidableEq, Repr

/-- `OrderItem.save` (`apps/pedidos/models.py`, lines 190-192): every save
recomputes `subtotal = quantity × unit_price` before persisting. -/
def OrderItemRec.save (it : OrderItemRec) : OrderItemRec :=
  { it with subtotal := (it.quantity : ℚ) * it.unit_price }

/-- The `Order` fields the total computation touches. -/
structure OrderRec where
  items : List OrderItemRec
  total_amount : ℚ
deriving DecidableEq, Repr

/-- `Order.calculate_total` (`apps/pedidos/models.py`, lines 133-137):
sums the items' subtotals and persists the result on the order. -/
def calculate_total (o : OrderRec) : OrderRec :=
  { o with total_amount := (o.items.map OrderItemRec.subtotal).sum }

/-- The dish catalog as a price table keyed by dish id. -/
structure Catalog where
  price : ℕ → ℚ

/-- An item request of `OrderCreateSerializer`: dish id, quantity, special
instructions. -/
structure ItemRequest where
  dish : ℕ
  quantity : ℕ
  special_instructions : String
deriving DecidableEq, Repr

/-- The item-creation loop of `OrderCreateSerializer.create`
(`apps/pedidos/serializers.py`, lines 70-77): each `OrderItem.objects.create`
snapshots `unit_price := dish.price` and runs `OrderItem.save`. -/
def createOrderItems (cat : Catalog) (items : List ItemRequest) : List OrderItemRec :=
  items.map (fun it =>
    OrderItemRec.save
      { dish := it.dish
        quantity := it.quantity
        unit_price := cat.price it.dish
        subtotal := 0
        special_instructions := it.special_instructions })

/-- `OrderCreateSerializer.create` (`apps/pedidos/serializers.py`,
lines 67-79): create the order row, create the items with price snapshots,
then `calculate_total`. -/
def order_create (cat : Catalog) (items : List ItemRequest) : OrderRec :=
  calculate_total { items := createOrderItems cat items, total_amount := 0 }

/-- The persistence world for the snapshot claim: the catalog price table and
the persisted orders. -/
structure World where
  catalog : Catalog
  orders : List OrderRec

/-- Persisting a newly created order. -/
def world_create_order (items : List ItemRequest) (w : World) : World :=
  { w with orders := w.orders ++ [order_create w.catalog items] }

/-- A later catalog price change: updates the dish's price, touching no order
row (`OrderItem.unit_price` has no foreign-key dependence on `Dish.price`). -/
def world_update_price (d : ℕ) (p : ℚ) (w : World) : World :=
  { w with catalog := ⟨fun x => if x = d then p else w.catalog.price x⟩ }

/-- C5: every order item persisted by CreateOrder snapshots `unit_price` from
the catalog price at creation time and satisfies
`subtotal = quantity × unit_price`; `OrderItem.save` recomputes the subtotal
on every save; the order total after CreateOrder is the sum of the items'
subtotals; and a later catalog price change leaves the persisted orders
untouched. -/
theorem C5_price_snapshot (cat : Catalog) (items : List ItemRequest)
    (w : World) (d : ℕ) (p : ℚ) :
    (∀ j ∈ (order_create cat items).items,
      j.unit_price = cat.price j.dish ∧
      j.subtotal = (j.quantity : ℚ) * j.unit_price) ∧
    (∀ it : OrderItemRec,
      (OrderItemRec.save it).subtotal = (it.quantity : ℚ) * it.unit_price) ∧
    (order_create cat items).total_amount =
      ((order_create cat items).items.map OrderItemRec.subtotal).sum ∧
    (world_update_price d p (world_create_order items w)).orders =
      (world_create_order items w).orders := by
  refine ⟨?_, fun it => rfl, rfl, rfl⟩
  intro j hj
  simp only [order_create, calculate_total, createOrderItems, List.mem_map] at hj
  obtain ⟨req, -, hEq⟩ := hj
  subst hEq
  exact ⟨rfl, rfl⟩

/-- Witness for C5: one dish priced 10.00 ordered with quantity 2 yields
`unit_price = 10`, `subtotal = 20` and `total_amount = 20`. -/
theorem C5_witness :
    (⟨0, 2, 10, 20, ""⟩ : OrderItemRec).unit_price =
        (⟨fun _ => 10⟩ : Catalog).price 0 ∧
    (⟨0, 2, 10, 20, ""⟩ : OrderItemRec).subtotal =
        (((⟨0, 2, 10, 20, ""⟩ : OrderItemRec).quantity : ℚ) *
          (⟨0, 2, 10, 20, ""⟩ : OrderItemRec).unit_price) :=
  (C5_price_snapshot ⟨fun _ => 10⟩ [⟨0, 2, ""⟩] ⟨⟨fun _ => 10⟩, []⟩ 0 12).1
    ⟨0, 2, 10, 20, ""⟩ (by norm_num [order_create, calculate_total, createOrderItems,
      OrderItemRec.save])

/-! ## Order creation validation (`apps/pedidos/serializers.py`) -/

/-- `Order.ORDER_TYPE_CHOICES` (`apps/pedidos/models.py`, lines 29-33). -/
inductive OrderType
  | DINE_IN
  | TAKEOUT
  | DELIVERY
deriving DecidableEq, Repr

/-- Python falsiness of the nullable `table_number` char field: `None` and the
empty string are falsy. -/
def blankStr : Option String → Bool
  | none => true
  | some s => s == ""

/-- `OrderSerializer.validate` (`apps/pedidos/serializers.py`, lines 52-57):
rejects DINE_IN with a falsy table number.  This serializer is used for the
default (update/retrieve) actions — `OrderViewSet.get_serializer_class`
returns `OrderCreateSerializer`, not this one, for the create action. -/
def orderSerializerValidate (order_type : OrderType) (table_number : Option String) :
    Except String Unit :=
  if order_type = .DINE_IN ∧ blankStr table_number then
    .error "Se requiere número de mesa para pedidos en el restaurante."
  else
    .ok ()

/-- One recipe line of a dish (`apps/platos/models.py`, lines 65-84):
the required quantity and the referenced ingredient's stock quantity
(`none` when the ingredient has no stock row — the `AttributeError` case). -/
structure RecipeItemRec where
  required : ℚ
  stock : Option ℚ
deriving DecidableEq, Repr

/-- `RecipeItem.check_availability` (`apps/platos/models.py`, lines 80-84):
stock quantity ≥ required quantity; a missing stock row yields `false`. -/
def RecipeItemRec.check_availability (r : RecipeItemRec) : Bool :=
  match r.stock with
  | some q => q ≥ r.required
  | none => false

/-- The dish fields read by order creation (`apps/platos/models.py`). -/
structure DishRec where
  name : String
  price : ℚ
  is_available : Bool
  recipe_items : List RecipeItemRec
deriving DecidableEq, Repr

/-- `Dish.check_availability` (`apps/platos/models.py`, lines 51-55). -/
def DishRec.check_availability (d : DishRec) : Bool :=
  d.recipe_items.all RecipeItemRec.check_availability

/-- `OrderItemSerializer.validate_dish` (`apps/pedidos/serializers.py`,
lines 23-32). -/
def validate_dish (d : DishRec) : Except String Unit :=
  if ¬ d.is_available then
    .error ("El platillo " ++ d.name ++ " no está disponible actualmente.")
  else if ¬ d.check_availability then
    .error ("Ingredientes insuficientes para " ++ d.name ++ ".")
  else
    .ok ()

/-- Whether an `Except` result is a success. -/
def exceptOk {α β : Type} : Except α β → Bool
  | .ok _ => true
  | .error _ => false

/-- The order-creation endpoint as wired in `OrderViewSet`
(`apps/pedidos/views.py`, lines 52-58 route the create action to
`OrderCreateSerializer`): each item's dish is validated by `validate_dish`,
and NO table-number check runs — `OrderSerializer.validate` is not invoked on
this path.  On success the order row is persisted. -/
def order_create_endpoint (order_type : OrderType) (table_number : Option String)
    (items : List (DishRec × ℕ)) : Except String OrderRec :=
  if items.all (fun it => exceptOk (validate_dish it.1)) then
    .ok (calculate_total
      { items := items.map (fun it =>
          OrderItemRec.save
            { dish := 0
              quantity := it.2
              unit_price := it.1.price
              subtotal := 0
              special_instructions := "" })
        total_amount := 0 })
  else
    .error "item validation failed"

/-- C6 (code evaluation at the failing input): a DINE_IN create request with
no table number and one fully available dish is accepted by the create path —
the order is persisted with 201 — while the table-number check the claim
describes lives in `OrderSerializer.validate`, which the create action never
runs.  The repository's own test `test_dine_in_requires_table_number` expects
this request to fail with a `table_number` error. -/
theorem C6_create_accepts_missing_table :
    exceptOk (order_create_endpoint .DINE_IN none [(⟨"Tacos", 10, true, []⟩, 1)]) =
      true ∧
    orderSerializerValidate .DINE_IN none =
      .error "Se requiere número de mesa para pedidos en el restaurante." := by
  constructor
  · rfl
  · rfl

/-! ## Dish popularity on order creation (`apps/pedidos/signals.py`) -/

/-- The body of the `update_dish_popularity` signal handler
(`apps/pedidos/signals.py`, lines 28-34): for each item currently attached to
the order, increment that dish's popularity score by one. -/
def update_dish_popularity (itemsOfOrder : List OrderItemRec) (pop : ℕ → ℤ) :
    ℕ → ℤ :=
  itemsOfOrder.foldl (fun p it => fun d => if d = it.dish then p d + 1 else p d) pop

/-- World state for the popularity side effect. -/
structure PopWorld where
  popularity : ℕ → ℤ
  orders : List OrderRec

/-- `OrderCreateSerializer.create` with Django signal timing
(`apps/pedidos/serializers.py`, lines 67-79 and `apps/pedidos/signals.py`):
`Order.objects.create` fires `post_save` with `created=True` BEFORE any
`OrderItem` row exists, so the popularity handler iterates an empty item set;
the items are created next (no handler is connected to `OrderItem`);
`calculate_total` saves the order again, firing `post_save` with
`created=False`, where the popularity handler does nothing. -/
def order_create_flow (cat : Catalog) (items : List ItemRequest) (w : PopWorld) :
    PopWorld :=
  let popAfterCreateSignal := update_dish_popularity [] w.popularity
  let orderItems := createOrderItems cat items
  let order := calculate_total { items := orderItems, total_amount := 0 }
  { popularity := popAfterCreateSignal, orders := w.orders ++ [order] }

/-- C8 (code evaluation): placing an order through the create endpoint leaves
every dish's popularity score unchanged, because the `post_save(created)`
signal runs before the order's items exist; the claim (and the handler's own
body) expects an increment per item referencing the dish. -/
theorem C8_popularity_not_incremented (cat : Catalog) (items : List ItemRequest)
    (w : PopWorld) (d : ℕ) :
    (order_create_flow cat items w).popularity d = w.popularity d := rfl

/-! ## Dish dietary flags (`apps/platos/serializers.py`) -/

/-- The two dietary flags of a persisted `Dish`
(`apps/platos/models.py`, lines 31-32). -/
structure DishFlags where
  is_vegetarian : Bool
  is_vegan : Bool
deriving DecidableEq, Repr

/-- The dietary flags as they appear in a request payload: each field may be
absent (`data.get` semantics). -/
structure DishFlagsData where
  is_vegetarian : Option Bool
  is_vegan : Option Bool
deriving DecidableEq, Repr

/-- `DishCreateUpdateSerializer.validate` (`apps/platos/serializers.py`,
lines 136-142): when the payload has a truthy `is_vegan` and a falsy (or
absent) `is_vegetarian`, force `is_vegetarian = True` in the validated data. -/
def dish_validate (d : DishFlagsData) : DishFlagsData :=
  if d.is_vegan.getD false = true ∧ d.is_vegetarian.getD false = false then
    { d with is_vegetarian := some true }
  else
    d

/-- `DishCreateUpdateSerializer.create` (`apps/platos/serializers.py`,
lines 103-111): absent flags fall back to the model defaults (`False`). -/
def dish_create (d : DishFlagsData) : DishFlags :=
  let v := dish_validate d
  { is_vegetarian := v.is_vegetarian.getD false
    is_vegan := v.is_vegan.getD false }

/-- `DishCreateUpdateSerializer.update` (`apps/platos/serializers.py`,
lines 113-128): `setattr` for each provided field, keeping the instance value
for absent ones. -/
def dish_update (inst : DishFlags) (d : DishFlagsData) : DishFlags :=
  let v := dish_validate d
  { is_vegetarian := v.is_vegetarian.getD inst.is_vegetarian
    is_vegan := v.is_vegan.getD inst.is_vegan }

/-- C9 counterexample: updating a vegan, vegetarian dish with a payload that
sets `is_vegetarian = false` and omits `is_vegan` leaves the dish vegan but
not vegetarian — the claimed invariant fails after this update. -/
theorem C9_counterexample :
    (dish_update ⟨true, true⟩ ⟨some false, none⟩).is_vegan = true ∧
    (dish_update ⟨true, true⟩ ⟨some false, none⟩).is_vegetarian = false := by
  decide

/-- C9 (amended): after every create, `is_vegan` implies `is_vegetarian`
(the validator coerces the flag); after an update whose payload supplies
`is_vegan`, the saved dish satisfies the implication as well — only an update
omitting `is_vegan` can break it. -/
theorem C9_vegan_implies_vegetarian (d : DishFlagsData) (inst : DishFlags) :
    ((dish_create d).is_vegan = true → (dish_create d).is_vegetarian = true) ∧
    (∀ v : Bool, d.is_vegan = some v →
      ((dish_update inst d).is_vegan = true →
        (dish_update inst d).is_vegetarian = true)) := by
  obtain ⟨vt, vg⟩ := d
  constructor
  · intro h
    rcases vg with - | b
    · exfalso
      simp [dish_create, dish_validate] at h
    · cases b
      · exfalso
        simp [dish_create, dish_validate] at h
      · rcases vt with - | c
        · simp [dish_create, dish_validate]
        · cases c <;> simp [dish_create, dish_validate]
  · rintro v rfl h
    cases v
    · exfalso
      simp [dish_update, dish_validate] at h
    · rcases vt with - | c
      · simp [dish_update, dish_validate]
      · cases c <;> simp [dish_update, dish_validate]

/-- Witness for C9: creating with `is_vegan = true`, `is_vegetarian = false`
yields a vegetarian dish; updating a plain dish with `is_vegan = true`
yields a vegetarian dish. -/
theorem C9_witness :
    (dish_create ⟨some false, some true⟩).is_vegetarian = true ∧
    (dish_update ⟨false, false⟩ ⟨none, some true⟩).is_vegetarian = true :=
  ⟨(C9_vegan_implies_vegetarian ⟨some false, some true⟩ ⟨false, false⟩).1 rfl,
   (C9_vegan_implies_vegetarian ⟨none, some true⟩ ⟨false, false⟩).2 true rfl rfl⟩

/-! ## Ingredients without a stock row (`apps/inventario`) -/

/-- The `Ingredient` fields the low-stock query reads
(`apps/inventario/models.py`): the minimum threshold and the one-to-one stock
row's quantity, `none` when no stock row exists. -/
structure IngredientRec where
  minimum_stock : ℚ
  stock : Option ℚ
deriving DecidableEq, Repr

/-- `Ingredient.current_stock` (`apps/inventario/models.py`, lines 60-65):
a missing stock row raises `AttributeError`, which is caught and turned into
`Decimal 0.00`. -/
def current_stock (i : IngredientRec) : ℚ :=
  match i.stock with
  | some q => q
  | none => 0

/-- `Ingredient.is_low_stock` (`apps/inventario/models.py`, lines 67-68). -/
def is_low_stock (i : IngredientRec) : Bool :=
  current_stock i < i.minimum_stock

/-- `IngredientViewSet.low_stock` (`apps/inventario/views.py`, lines 30-38):
filters the full ingredient queryset by `is_low_stock`. -/
def low_stock (ings : List IngredientRec) : List IngredientRec :=
  ings.filter is_low_stock

/-- C10: an ingredient with no stock row has `current_stock = 0.00` (no
error), and whenever its minimum threshold is positive it is reported low on
stock and listed by the low-stock query. -/
theorem C10_missing_stock_row (i : IngredientRec) (ings : List IngredientRec)
    (hs : i.stock = none) :
    current_stock i = 0 ∧
    (0 < i.minimum_stock → is_low_stock i = true) ∧
    (i ∈ ings → 0 < i.minimum_stock → i ∈ low_stock ings) := by
  have h0 : current_stock i = 0 := by
    simp [current_stock, hs]
  refine ⟨h0, ?_, ?_⟩
  · intro hmin
    simp [is_low_stock, h0, hmin]
  · intro hmem hmin
    refine List.mem_filter.mpr ⟨hmem, ?_⟩
    simp [is_low_stock, h0, hmin]

/-- Witness for C10: an ingredient with threshold 5.00 and no stock row has
current stock 0 and appears in the low-stock listing. -/
theorem C10_witness :
    current_stock ⟨5, none⟩ = 0 ∧
    is_low_stock ⟨5, none⟩ = true ∧
    (⟨5, none⟩ : IngredientRec) ∈ low_stock [⟨5, none⟩] :=
  ⟨(C10_missing_stock_row ⟨5, none⟩ [⟨5, none⟩] rfl).1,
   (C10_missing_stock_row ⟨5, none⟩ [⟨5, none⟩] rfl).2.1 (by norm_num),
   (C10_missing_stock_row ⟨5, none⟩ [⟨5, none⟩] rfl).2.2 (by simp) (by norm_num)⟩

end SKC
